import Mathlib

/-!
Shallow embedding of kubevoidcraft/mcp-kind-manager.

Each definition transcribes one Go function from the repository sources.
Serialization boundaries are modelled at the record level: the YAML text
produced by `yaml.Marshal` and read back by `yaml.Unmarshal` is represented
by the `ClusterConfig` record itself, and an unparsable input text is
represented by `none`.  Go maps whose only observed property is emptiness
or key iteration are represented as association lists.  Go `int` is
modelled as `Int`; a Go `for i := 0; i < n; i++` loop over an `int` bound
executes `n.toNat` iterations, which the embedding mirrors with
`List.range n.toNat`.
-/

namespace KindManager

/-! ### Data model, from src/internal/kind (config part) -/

/-- PortMapping, from the `kind` package: a host-to-container port mapping. -/
structure PortMapping where
  hostPort : Int
  containerPort : Int
  listenAddress : String
  protocol : String
deriving DecidableEq

/-- Mount, from the `kind` package: a host-to-container mount. -/
structure Mount where
  hostPath : String
  containerPath : String
  readOnly : Bool
  propagation : String
deriving DecidableEq

/-- NetworkConfig, from the `kind` package: cluster networking options. -/
structure NetworkConfig where
  ipFamily : String
  apiServerAddress : String
  apiServerPort : Int
  podSubnet : String
  serviceSubnet : String
  disableDefaultCNI : Bool
  kubeProxyMode : String
deriving DecidableEq

/-- NodeConfig, from the `kind` package: one node of the cluster document.
Go `nil` slices and maps are the empty list. -/
structure NodeConfig where
  role : String
  image : String
  extraPortMappings : List PortMapping
  extraMounts : List Mount
  labels : List (String × String)
  kubeadmConfigPatches : List String
deriving DecidableEq

/-- ClusterConfig, from the `kind` package: the cluster document that
`GenerateConfig` marshals and `ValidateConfig` unmarshals. -/
structure ClusterConfig where
  kind : String
  apiVersion : String
  name : String
  nodes : List NodeConfig
  networking : Option NetworkConfig
  featureGates : List (String × Bool)
  containerdConfigPatches : List String
deriving DecidableEq

/-- ConfigOptions, from the `kind` package: input record of `GenerateConfig`. -/
structure ConfigOptions where
  clusterName : String
  numWorkers : Int
  numControlPlanes : Int
  kubernetesVersion : String
  portMappings : List PortMapping
  extraMounts : List Mount
  containerdPatches : List String
  podSubnet : String
  serviceSubnet : String
  disableDefaultCNI : Bool
  labels : List (String × String)
  ipFamily : String
  kubeProxyMode : String
  apiServerPort : Int
deriving DecidableEq

/-! ### GenerateConfig, from src/internal/kind (config part) -/

/-- `kindNodeImage`: the kindest/node image for a Kubernetes version,
prefixing "v" when absent. -/
def kindNodeImage (version : String) : String :=
  if version.startsWith "v" then "kindest/node:" ++ version
  else "kindest/node:" ++ ("v" ++ version)

/-- One iteration of the control-plane loop of `GenerateConfig`:
the node built at loop index `i`.  Only index 0 receives the
port-mapping list, and only when the list is non-empty. -/
def mkControlPlaneNode (opts : ConfigOptions) (i : Nat) : NodeConfig :=
  { role := "control-plane"
    image := if opts.kubernetesVersion ≠ "" then kindNodeImage opts.kubernetesVersion else ""
    extraPortMappings :=
      if i = 0 ∧ opts.portMappings ≠ [] then opts.portMappings else []
    extraMounts := if opts.extraMounts ≠ [] then opts.extraMounts else []
    labels := if opts.labels ≠ [] then opts.labels else []
    kubeadmConfigPatches := [] }

/-- One iteration of the worker loop of `GenerateConfig`. -/
def mkWorkerNode (opts : ConfigOptions) (_i : Nat) : NodeConfig :=
  { role := "worker"
    image := if opts.kubernetesVersion ≠ "" then kindNodeImage opts.kubernetesVersion else ""
    extraPortMappings := []
    extraMounts := if opts.extraMounts ≠ [] then opts.extraMounts else []
    labels := if opts.labels ≠ [] then opts.labels else []
    kubeadmConfigPatches := [] }

/-- The node list built by the two loops of `GenerateConfig`:
control-plane nodes first, then workers. -/
def generateNodes (opts : ConfigOptions) (c w : Nat) : List NodeConfig :=
  (List.range c).map (mkControlPlaneNode opts) ++ (List.range w).map (mkWorkerNode opts)

/-- The control-plane count after the normalization at the top of
`GenerateConfig`: 1 when non-positive. -/
def normalizedControlPlanes (opts : ConfigOptions) : Int :=
  if opts.numControlPlanes ≤ 0 then 1 else opts.numControlPlanes

/-- The cluster document `GenerateConfig` builds once the cluster name is
known to be non-empty. -/
def generatedConfig (opts : ConfigOptions) : ClusterConfig :=
  { kind := "Cluster"
    apiVersion := "kind.x-k8s.io/v1alpha4"
    name := opts.clusterName
    nodes := generateNodes opts (normalizedControlPlanes opts).toNat opts.numWorkers.toNat
    networking :=
      if opts.podSubnet ≠ "" ∨ opts.serviceSubnet ≠ "" ∨ opts.disableDefaultCNI = true ∨
          opts.ipFamily ≠ "" ∨ opts.kubeProxyMode ≠ "" ∨ opts.apiServerPort ≠ 0 then
        some
          { ipFamily := opts.ipFamily
            apiServerAddress := ""
            apiServerPort := opts.apiServerPort
            podSubnet := opts.podSubnet
            serviceSubnet := opts.serviceSubnet
            disableDefaultCNI := opts.disableDefaultCNI
            kubeProxyMode := opts.kubeProxyMode }
      else none
    featureGates := []
    containerdConfigPatches :=
      if opts.containerdPatches ≠ [] then opts.containerdPatches else [] }

/-- `GenerateConfig`, from the `kind` package.  The Go function marshals
the built record to YAML; the embedding returns the record itself. -/
def GenerateConfig (opts : ConfigOptions) : Except String ClusterConfig :=
  if opts.clusterName = "" then .error "cluster name is required"
  else .ok (generatedConfig opts)

/-! ### ValidateConfig, from src/internal/kind (config part) -/

/-- The node loop of `ValidateConfig`: tracks whether a control-plane node
was seen and rejects the first invalid role. -/
def roleLoop : List NodeConfig → Bool → Except String Bool
  | [], hasCP => .ok hasCP
  | node :: rest, hasCP =>
    let hasCP := hasCP || (node.role == "control-plane")
    if node.role ≠ "control-plane" ∧ node.role ≠ "worker" then
      .error ("invalid node role " ++ node.role ++ "; must be control-plane or worker")
    else roleLoop rest hasCP

/-- `ValidateConfig`, from the `kind` package.  The YAML-parse step of the
Go function is modelled by the `Option`: `none` is a text that does not
unmarshal into the document shape. -/
def ValidateConfig (doc : Option ClusterConfig) : Except String Unit :=
  match doc with
  | none => .error "invalid YAML"
  | some cfg =>
    if cfg.kind ≠ "Cluster" then .error ("expected kind Cluster, got " ++ cfg.kind)
    else if cfg.apiVersion ≠ "kind.x-k8s.io/v1alpha4" then
      .error ("expected apiVersion kind.x-k8s.io/v1alpha4, got " ++ cfg.apiVersion)
    else
      match roleLoop cfg.nodes false with
      | .error e => .error e
      | .ok hasCP =>
        if cfg.nodes.length > 0 ∧ hasCP = false then
          .error "at least one control-plane node is required"
        else .ok ()

/-! ### String helpers modelling the Go strings package -/

/-- `strings.HasPrefix` at the character-list level: does the first list
lead the second one? -/
def leadMatch : List Char → List Char → Bool
  | [], _ => true
  | _ :: _, [] => false
  | a :: as, b :: bs => a == b && leadMatch as bs

/-- Helper for `strContains`: does the needle lead the haystack at some
position? -/
def strContainsAux (needle : List Char) (hay : List Char) : Bool :=
  match hay with
  | [] => leadMatch needle []
  | c :: rest => leadMatch needle (c :: rest) || strContainsAux needle rest

/-- `strings.Contains s sub`. -/
def strContains (s sub : String) : Bool :=
  strContainsAux sub.data s.data

/-- `strings.HasPrefix s pre`. -/
def strStarts (s pre : String) : Bool :=
  leadMatch pre.data s.data

/-! ### Data model and operations, from src/internal/registry/mirrors.go -/

/-- RegistryOverride: a mapping from an original registry to a mirror. -/
structure RegistryOverride where
  original : String
  mirror : String
deriving DecidableEq

/-- NodeCommand: a command to run on a Kind node after cluster creation. -/
structure NodeCommand where
  nodeSelector : String
  description : String
  command : List String
deriving DecidableEq

/-- MirrorConfig: the generated containerd mirror configuration. -/
structure MirrorConfig where
  containerdPatches : List String
  extraMounts : List Mount
  postCreateCommands : List NodeCommand
deriving DecidableEq

/-- The mirror URL normalization at the top of `generateHostsToml`:
a scheme-less mirror gets the plain "http://" scheme. -/
def normalizeMirrorURL (mirror : String) : String :=
  if strStarts mirror "http://" || strStarts mirror "https://" then mirror
  else "http://" ++ mirror

/-- The server line of `generateHostsToml`: the fixed upstream alias for
the default public registry, else built from the original hostname. -/
def serverSegment (o : RegistryOverride) : String :=
  if o.original == "docker.io" then "server = \"https://registry-1.docker.io\"\n\n"
  else "server = \"https://" ++ o.original ++ "\"\n\n"

/-- `generateHostsToml` as the ordered list of strings written to the
builder, one entry per `WriteString` call of the Go function. -/
def generateHostsTomlSegments (o : RegistryOverride) : List String :=
  if strStarts (normalizeMirrorURL o.mirror) "http://" then
    [serverSegment o,
     "[host.\"" ++ normalizeMirrorURL o.mirror ++ "\"]\n",
     "  capabilities = [\"pull\", \"resolve\"]\n",
     "  skip_verify = true\n"]
  else
    [serverSegment o,
     "[host.\"" ++ normalizeMirrorURL o.mirror ++ "\"]\n",
     "  capabilities = [\"pull\", \"resolve\"]\n"]

/-- `generateHostsToml`: the hosts.toml content for one registry override. -/
def generateHostsToml (o : RegistryOverride) : String :=
  String.join (generateHostsTomlSegments o)

/-- CredentialInfo, from src/internal/registry/credentials.go. -/
structure CredentialInfo where
  filePath : String
  registries : List String
  credStore : String
  credHelpers : List (String × String)
  inlineAuth : Bool
  mountPath : String
  source : String
  notes : String
deriving DecidableEq

/-- The two post-create commands `GenerateMirrorConfig` emits for one
override: directory creation, then the hosts.toml heredoc write. -/
def overrideCommands (o : RegistryOverride) : List NodeCommand :=
  [ { nodeSelector := "all"
      description := "Create registry config directory for " ++ o.original
      command := ["mkdir", "-p", "/etc/containerd/certs.d/" ++ o.original] },
    { nodeSelector := "all"
      description := "Configure mirror for " ++ o.original ++ " -> " ++ o.mirror
      command :=
        ["bash", "-c",
          "cat > /etc/containerd/certs.d/" ++ o.original ++ "/hosts.toml << \x27EOF\x27\n" ++
            generateHostsToml o ++ "\nEOF"] } ]

/-- The single containerd config-path patch always emitted. -/
def containerdRegistryPatch : String :=
  "[plugins.\"io.containerd.grpc.v1.cri\".registry]\n  config_path = \"/etc/containerd/certs.d\""

/-- `GenerateMirrorConfig`, from src/internal/registry/mirrors.go. -/
def GenerateMirrorConfig (overrides : List RegistryOverride)
    (credInfo : Option CredentialInfo) : Except String MirrorConfig :=
  if overrides = [] then .error "at least one registry override is required"
  else
    .ok
      { containerdPatches := [containerdRegistryPatch]
        postCreateCommands := overrides.flatMap overrideCommands
        extraMounts :=
          match credInfo with
          | some ci =>
            if ci.inlineAuth then
              [{ hostPath := ci.filePath, containerPath := ci.mountPath
                 readOnly := true, propagation := "" }]
            else []
          | none => [] }

/-- `filterNodes`: node names matching a selector.  The Go loop appends
nothing for a selector other than the three known ones. -/
def filterNodes (nodes : List String) (selector : String) : List String :=
  if selector == "all" then nodes
  else
    nodes.filter fun n =>
      if selector == "control-plane" then strContains n "control-plane"
      else if selector == "worker" then !strContains n "control-plane"
      else false

/-- The result line `ApplyMirrorConfig` records for one provisioning
command on one node.  `exec` abstracts `Manager.ExecOnNode`: an error
value is a failed execution carrying its message, an ok value carries
the captured output. -/
def commandLine (exec : String → List String → Except String String)
    (node : String) (cmd : NodeCommand) : String :=
  match exec node cmd.command with
  | .error e => "FAILED [" ++ node ++ "] " ++ cmd.description ++ ": " ++ e
  | .ok out =>
    let msg := "OK [" ++ node ++ "] " ++ cmd.description
    if out.trim ≠ "" then msg ++ ": " ++ out.trim else msg

/-- The result line recorded for the containerd restart on one node. -/
def restartLine (exec : String → List String → Except String String)
    (node : String) : String :=
  match exec node ["systemctl", "restart", "containerd"] with
  | .error e => "FAILED [" ++ node ++ "] restart containerd: " ++ e
  | .ok out =>
    let msg := "OK [" ++ node ++ "] restarted containerd"
    if out.trim ≠ "" then msg ++ ": " ++ out.trim else msg

/-- The lines recorded by the first loop of `ApplyMirrorConfig`: every
provisioning command applied to every node matching its selector, in
command order, node order within a command. -/
def provisioningLines (exec : String → List String → Except String String)
    (nodes : List String) (cfg : MirrorConfig) : List String :=
  cfg.postCreateCommands.flatMap fun cmd =>
    (filterNodes nodes cmd.nodeSelector).map fun node => commandLine exec node cmd

/-- The lines recorded by the second loop of `ApplyMirrorConfig`: the
containerd restart on every node, in node order. -/
def restartLines (exec : String → List String → Except String String)
    (nodes : List String) : List String :=
  nodes.map (restartLine exec)

/-- `ApplyMirrorConfig`, from src/internal/registry/mirrors.go, on the
branch where `GetClusterNodes` succeeded and returned `nodes`:
every provisioning command is applied to every node matching its
selector, then the runtime daemon is restarted on every node, each
step recorded and never aborting.  The two named blocks are the two
sequential loops of the Go function, appended in program order. -/
def ApplyMirrorConfig (exec : String → List String → Except String String)
    (nodes : List String) (cfg : MirrorConfig) : List String :=
  provisioningLines exec nodes cfg ++ restartLines exec nodes

/-! ### Credential discovery, from src/internal/registry/credentials.go -/

/-- The subset of a Docker/Podman config.json the code reads:
auth entries, credsStore, credHelpers. -/
structure DockerConfigFile where
  auths : List (String × String)
  credsStore : String
  credHelpers : List (String × String)
deriving DecidableEq

/-- What the filesystem holds at one candidate path, covering the three
failure points of the Go loop: `os.Stat` failure, `os.ReadFile` failure,
and `json.Unmarshal` failure. -/
inductive FileState where
  | missing
  | unreadable
  | unparsable
  | parsed (cfg : DockerConfigFile)
deriving DecidableEq

/-- A candidate credential file path with its source runtime label. -/
structure CandidatePath where
  path : String
  source : String
deriving DecidableEq

/-- The CredentialInfo built by `FindCredentials` for a candidate that
exists and parses. -/
def credInfoFor (p : CandidatePath) (cfg : DockerConfigFile) : CredentialInfo :=
  let inline := cfg.credsStore == "" && cfg.credHelpers.length == 0
  let registries := cfg.auths.map Prod.fst
  let notes0 :=
    if cfg.credsStore ≠ "" then
      "Credentials are managed by credential helper \"" ++ cfg.credsStore ++ "\". " ++
        "The config file may not contain inline credentials. " ++
        "To use with Kind, you may need to extract credentials using " ++
        "\x27docker-credential-" ++ cfg.credsStore ++ " get\x27 and create a standalone config.json, " ++
        "or use imagePullSecrets in your Kubernetes manifests."
    else ""
  let notes :=
    if inline = false ∧ registries = [] then
      notes0 ++ " No inline auth entries found in the config file."
    else notes0
  { filePath := p.path
    registries := registries
    credStore := cfg.credsStore
    credHelpers := cfg.credHelpers
    inlineAuth := inline
    mountPath := "/var/lib/kubelet/config.json"
    source := p.source
    notes := notes }

/-- The candidate loop of `FindCredentials`: the first candidate that
exists on disk and parses.  All three failure points of the loop body
`continue` to the next candidate. -/
def findFirst (fs : String → FileState) : List CandidatePath → Option CredentialInfo
  | [] => none
  | p :: rest =>
    match fs p.path with
    | .parsed cfg => some (credInfoFor p cfg)
    | _ => findFirst fs rest

/-- Comma-space join, as `strings.Join(_, ", ")`. -/
def joinComma : List String → String
  | [] => ""
  | [s] => s
  | s :: rest => s ++ ", " ++ joinComma rest

/-- `FindCredentials`, from src/internal/registry/credentials.go, with the
filesystem abstracted as `fs` and the candidate list (built by
`candidatePaths` from runtime, environment and OS, with `~` expansion
already applied) passed in. -/
def FindCredentials (fs : String → FileState) (paths : List CandidatePath) :
    Except String CredentialInfo :=
  match findFirst fs paths with
  | some info => .ok info
  | none =>
    .error ("no registry credentials found; searched paths: " ++
      joinComma (paths.map CandidatePath.path))

/-! ### Runtime detection, from src/unnamed/part_001 (package runtime) -/

/-- Runtime: the container runtime kind. -/
inductive Runtime where
  | docker
  | podman
  | unknown
deriving DecidableEq

/-- Backend: the container runtime backend variant. -/
inductive Backend where
  | dockerDesktop
  | colima
  | wsl
  | podmanMachine
  | native
  | rancherDesktop
  | lima
  | unknown
deriving DecidableEq

/-- OSInfo, from the `runtime` package os file. -/
structure OSInfo where
  os : String
  arch : String
  platform : String
  platformNote : String
deriving DecidableEq

/-- RuntimeInfo: the detection result record. -/
structure RuntimeInfo where
  runtime : Runtime
  backend : Backend
  version : String
  socketPath : String
  os : OSInfo
  available : Bool
  error : String
deriving DecidableEq

/-- The subset of `docker info` JSON the detector reads. -/
structure DockerInfo where
  serverVersion : String
  operatingSystem : String
  osType : String
  architecture : String
  name : String
deriving DecidableEq

/-- The subset of `podman info` JSON the detector reads
(Host.Version.Version and Host.RemoteSocket.Path, flattened). -/
structure PodmanInfo where
  version : String
  remoteSocketPath : String
deriving DecidableEq

/-- The environment a `Detect` call observes, abstracting the command
runner (`LookPath`, the two info calls), `detectDockerSocket` (an
environment-variable and socket-file heuristic) and `isWSL` (the
/proc/version kernel-signature check).  `dockerInfoOut = none` covers
both a failed `docker info` run and unparsable output, the two failure
points after which `detectDocker` returns an error. -/
structure DetectEnv where
  dockerOnPath : Bool
  dockerInfoOut : Option DockerInfo
  podmanOnPath : Bool
  podmanInfoOut : Option PodmanInfo
  socketPath : String
  wsl : Bool
  osInfo : OSInfo

/-- `detectDockerBackend`: the priority chain of substring signatures,
then socket-path hints, then the kernel-signature check, then native
Linux, defaulting to the desktop variant. -/
def detectDockerBackend (di : DockerInfo) (env : DetectEnv) : Backend :=
  let osField := di.operatingSystem.toLower
  let nameField := di.name.toLower
  if strContains osField "docker desktop" then .dockerDesktop
  else if strContains osField "colima" || strContains nameField "colima" then .colima
  else if strContains nameField "rancher" then .rancherDesktop
  else if strContains nameField "lima" then .lima
  else if strContains env.socketPath ".colima" then .colima
  else if strContains env.socketPath ".lima" then .lima
  else if strContains env.socketPath ".rd" then .rancherDesktop
  else if env.osInfo.os == "linux" && env.wsl then .wsl
  else if env.osInfo.os == "linux" then .native
  else .dockerDesktop

/-- `Detector.detectPodmanBackend`: the switch over the host OS. -/
def detectPodmanBackend (osInfo : OSInfo) (wsl : Bool) : Backend :=
  if osInfo.os = "darwin" ∨ osInfo.os = "windows" then .podmanMachine
  else if osInfo.os = "linux" then (if wsl then .wsl else .native)
  else .unknown

/-- The RuntimeInfo `detectDocker` returns on success. -/
def dockerSuccessInfo (env : DetectEnv) (di : DockerInfo) : RuntimeInfo :=
  { runtime := .docker
    backend := detectDockerBackend di env
    version := di.serverVersion
    socketPath := env.socketPath
    os := env.osInfo
    available := true
    error := "" }

/-- The RuntimeInfo `detectPodman` returns on success. -/
def podmanSuccessInfo (env : DetectEnv) (pi_ : PodmanInfo) : RuntimeInfo :=
  { runtime := .podman
    backend := detectPodmanBackend env.osInfo env.wsl
    version := pi_.version
    socketPath := pi_.remoteSocketPath
    os := env.osInfo
    available := true
    error := "" }

/-- The fixed diagnostic carried by the unavailable result. -/
def noRuntimeMsg : String := "no container runtime detected; install Docker or Podman"

/-- The unavailable RuntimeInfo `Detect` returns when neither runtime
responds. -/
def unavailableInfo (osInfo : OSInfo) : RuntimeInfo :=
  { runtime := .unknown
    backend := .unknown
    version := ""
    socketPath := ""
    os := osInfo
    available := false
    error := noRuntimeMsg }

/-- `Detector.Detect`: probe docker first, fall through to podman when
docker is absent on the search path or its info call fails, and return
the unavailable value when neither responds. -/
def Detect (env : DetectEnv) : RuntimeInfo :=
  let tryPodman : RuntimeInfo :=
    if env.podmanOnPath then
      match env.podmanInfoOut with
      | some pi_ => podmanSuccessInfo env pi_
      | none => unavailableInfo env.osInfo
    else unavailableInfo env.osInfo
  if env.dockerOnPath then
    match env.dockerInfoOut with
    | some di => dockerSuccessInfo env di
    | none => tryPodman
  else tryPodman

/-! ### Network advisory table, from src/internal/kind/manager.go -/

/-- NetworkAdvice: guidance on exposing applications from Kind. -/
structure NetworkAdvice where
  listenAddress : String
  supportsPortMapping : Bool
  requiresExtraConfig : Bool
  notes : String
  recommendedPortRange : String
deriving DecidableEq

/-- The base advice record built at the top of `DetectNetworkConfig`. -/
def baseAdvice : NetworkAdvice :=
  { listenAddress := "127.0.0.1"
    supportsPortMapping := true
    requiresExtraConfig := false
    notes := ""
    recommendedPortRange := "30000-32767" }

/-- `DetectNetworkConfig`: the advisory switch over the detected backend. -/
def DetectNetworkConfig (ri : RuntimeInfo) : NetworkAdvice :=
  match ri.backend with
  | .dockerDesktop =>
    { baseAdvice with notes :=
        "Docker Desktop forwards container ports to the host automatically. " ++
        "Use extraPortMappings in the Kind config to map NodePorts to host ports. " ++
        "Bind to 127.0.0.1 for local-only access or 0.0.0.0 for LAN access." }
  | .colima =>
    { baseAdvice with notes :=
        "Colima forwards ports from the VM to the macOS host. " ++
        "extraPortMappings work seamlessly. Bind to 127.0.0.1 for local access. " ++
        "For LAN access, use 0.0.0.0 and ensure Colima network settings allow it." }
  | .wsl =>
    { baseAdvice with notes :=
        "WSL2 automatically forwards localhost ports from the Linux VM to Windows. " ++
        "extraPortMappings on 127.0.0.1 are reachable from Windows host. " ++
        "For LAN access, Windows firewall rules may need adjustment." }
  | .podmanMachine =>
    { baseAdvice with
        notes :=
          "Podman Machine forwards ports from the VM to the host. " ++
          "extraPortMappings work with rootful Podman Machine. " ++
          "For rootless mode, additional port forwarding may be required."
        requiresExtraConfig := ri.os.os == "darwin" || ri.os.os == "windows" }
  | .native =>
    if ri.os.os == "linux" then
      { baseAdvice with
          listenAddress := "0.0.0.0"
          notes :=
            "Native Linux: containers are directly accessible. " ++
            "extraPortMappings bind to the host network interface. " ++
            "Container IPs are also directly reachable from the host." }
    else baseAdvice
  | .rancherDesktop =>
    { baseAdvice with notes :=
        "Rancher Desktop forwards container ports similar to Docker Desktop. " ++
        "extraPortMappings work as expected." }
  | .lima =>
    { baseAdvice with notes :=
        "Lima VMs forward ports to the macOS host. " ++
        "extraPortMappings should work. Check Lima port forwarding configuration if issues arise." }
  | .unknown =>
    { baseAdvice with notes :=
        "Unknown backend. extraPortMappings with 127.0.0.1 is a safe default." }

/-! ### Helper lemmas for the configuration builder and validator -/

theorem map_role_range_cp (opts : ConfigOptions) (c : Nat) :
    ((List.range c).map (mkControlPlaneNode opts)).map NodeConfig.role =
      List.replicate c "control-plane" := by
  induction c with
  | zero => rfl
  | succ n ih =>
    rw [List.range_succ, List.map_append, List.map_append, ih, List.replicate_succ']
    rfl

theorem map_role_range_worker (opts : ConfigOptions) (w : Nat) :
    ((List.range w).map (mkWorkerNode opts)).map NodeConfig.role =
      List.replicate w "worker" := by
  induction w with
  | zero => rfl
  | succ n ih =>
    rw [List.range_succ, List.map_append, List.map_append, ih, List.replicate_succ']
    rfl

theorem generateNodes_map_role (opts : ConfigOptions) (c w : Nat) :
    (generateNodes opts c w).map NodeConfig.role =
      List.replicate c "control-plane" ++ List.replicate w "worker" := by
  unfold generateNodes
  rw [List.map_append, map_role_range_cp, map_role_range_worker]

theorem roleLoop_ok_iff (ns : List NodeConfig) (b : Bool) :
    (∃ h, roleLoop ns b = .ok h) ↔
      ∀ n ∈ ns, n.role = "control-plane" ∨ n.role = "worker" := by
  induction ns generalizing b with
  | nil => simp [roleLoop]
  | cons node rest ih =>
    constructor
    · rintro ⟨h, hh⟩ n hn
      unfold roleLoop at hh
      by_cases hr : node.role ≠ "control-plane" ∧ node.role ≠ "worker"
      · simp [hr] at hh
      · rcases List.mem_cons.mp hn with hn | hn
        · subst hn
          rcases not_and_or.mp hr with h1 | h1 <;> simp at h1 <;> simp [h1]
        · have := (ih (b || (node.role == "control-plane"))).mp
          simp only [hr, if_false] at hh
          exact this ⟨h, hh⟩ n hn
    · intro hall
      have hnode := hall node (by simp)
      have hrest := (ih (b || (node.role == "control-plane"))).mpr
        (fun n hn => hall n (by simp [hn]))
      obtain ⟨h, hh⟩ := hrest
      refine ⟨h, ?_⟩
      unfold roleLoop
      have : ¬(node.role ≠ "control-plane" ∧ node.role ≠ "worker") := by
        rcases hnode with h1 | h1 <;> simp [h1]
      simp only [this, if_false]
      exact hh

theorem roleLoop_ok_val (ns : List NodeConfig) (b h : Bool) :
    roleLoop ns b = .ok h → h = (b || ns.any (fun n => n.role == "control-plane")) := by
  induction ns generalizing b with
  | nil =>
    intro hh
    unfold roleLoop at hh
    simp [Except.ok.injEq] at hh
    simp [hh]
  | cons node rest ih =>
    intro hh
    unfold roleLoop at hh
    by_cases hr : node.role ≠ "control-plane" ∧ node.role ≠ "worker"
    · simp [hr] at hh
    · simp only [hr, if_false] at hh
      have := ih (b || (node.role == "control-plane")) hh
      simp [this, Bool.or_assoc]

/-- Characterization of a successful `ValidateConfig` run, used both for
the validator claims and the generate-then-validate round trip. -/
theorem validateConfig_ok_iff (doc : Option ClusterConfig) :
    ValidateConfig doc = .ok () ↔
      ∃ cfg, doc = some cfg ∧ cfg.kind = "Cluster" ∧
        cfg.apiVersion = "kind.x-k8s.io/v1alpha4" ∧
        (∀ n ∈ cfg.nodes, n.role = "control-plane" ∨ n.role = "worker") ∧
        (cfg.nodes ≠ [] → ∃ n ∈ cfg.nodes, n.role = "control-plane") := by
  cases doc with
  | none => simp [ValidateConfig]
  | some cfg =>
    simp only [ValidateConfig, Option.some.injEq]
    constructor
    · intro hv
      by_cases hk : cfg.kind = "Cluster"
      swap
      · simp [hk] at hv
      by_cases ha : cfg.apiVersion = "kind.x-k8s.io/v1alpha4"
      swap
      · simp [hk, ha] at hv
      simp only [hk, ha, ne_eq, not_true_eq_false, if_false] at hv
      rcases hloop : roleLoop cfg.nodes false with e | hasCP
      · rw [hloop] at hv; exact absurd hv (by simp)
      · rw [hloop] at hv
        have hroles := (roleLoop_ok_iff cfg.nodes false).mp ⟨hasCP, hloop⟩
        have hval := roleLoop_ok_val cfg.nodes false hasCP hloop
        refine ⟨cfg, rfl, hk, ha, hroles, ?_⟩
        intro hne
        by_cases hcp : hasCP = true
        · rw [hval] at hcp
          simp only [Bool.false_or, List.any_eq_true] at hcp
          obtain ⟨n, hn, hcpn⟩ := hcp
          exact ⟨n, hn, by simpa using hcpn⟩
        · exfalso
          have hlen : cfg.nodes.length > 0 := List.length_pos.mpr hne
          simp only [Bool.not_eq_true] at hcp
          simp [hlen, hcp] at hv
    · rintro ⟨cfg', hcfg, hk, ha, hroles, hcp⟩
      obtain rfl : cfg = cfg' := hcfg
      simp only [hk, ha, ne_eq, not_true_eq_false, if_false]
      obtain ⟨hasCP, hloop⟩ := (roleLoop_ok_iff cfg.nodes false).mpr hroles
      rw [hloop]
      have hval := roleLoop_ok_val cfg.nodes false hasCP hloop
      by_cases hne : cfg.nodes = []
      · rw [hne] at hval
        simp at hval
        simp [hne, hval]
      · obtain ⟨n, hn, hcpn⟩ := hcp hne
        have : hasCP = true := by
          rw [hval]
          simp only [Bool.false_or, List.any_eq_true]
          exact ⟨n, hn, by simpa using hcpn⟩
        simp [this]

theorem generatedConfig_nodes (opts : ConfigOptions) :
    (generatedConfig opts).nodes =
      generateNodes opts (normalizedControlPlanes opts).toNat opts.numWorkers.toNat := rfl

theorem normalizedControlPlanes_of_pos (opts : ConfigOptions)
    (h : 0 < opts.numControlPlanes) :
    normalizedControlPlanes opts = opts.numControlPlanes := by
  unfold normalizedControlPlanes
  rw [if_neg]
  omega

theorem normalizedControlPlanes_toNat_pos (opts : ConfigOptions) :
    0 < (normalizedControlPlanes opts).toNat := by
  unfold normalizedControlPlanes
  split <;> omega

/-- A sample ConfigOptions used by the concrete witnesses: cluster "demo"
with 3 control-planes, 2 workers and a port mapping. -/
def demoOptions : ConfigOptions :=
  { clusterName := "demo"
    numWorkers := 2
    numControlPlanes := 3
    kubernetesVersion := "1.31.0"
    portMappings := [{ hostPort := 80, containerPort := 80, listenAddress := "127.0.0.1", protocol := "TCP" }]
    extraMounts := []
    containerdPatches := []
    podSubnet := ""
    serviceSubnet := ""
    disableDefaultCNI := false
    labels := []
    ipFamily := ""
    kubeProxyMode := ""
    apiServerPort := 0 }

/-- C1: for every ConfigOptions with a non-empty cluster name, positive
control-plane count c and non-negative worker count w, GenerateConfig
succeeds and the node list is exactly c nodes of role "control-plane"
followed by exactly w nodes of role "worker". -/
theorem generateConfig_role_layout (opts : ConfigOptions)
    (h1 : opts.clusterName ≠ "") (h2 : 0 < opts.numControlPlanes)
    (_h3 : 0 ≤ opts.numWorkers) :
    ∃ cfg, GenerateConfig opts = .ok cfg ∧
      cfg.nodes.map NodeConfig.role =
        List.replicate opts.numControlPlanes.toNat "control-plane" ++
          List.replicate opts.numWorkers.toNat "worker" := by
  refine ⟨generatedConfig opts, ?_, ?_⟩
  · unfold GenerateConfig
    rw [if_neg h1]
  · rw [generatedConfig_nodes, generateNodes_map_role, normalizedControlPlanes_of_pos opts h2]

/-- Witness for C1 at the concrete demo options. -/
theorem generateConfig_role_layout_witness :
    ∃ cfg, GenerateConfig demoOptions = .ok cfg ∧
      cfg.nodes.map NodeConfig.role =
        List.replicate (3 : Int).toNat "control-plane" ++
          List.replicate (2 : Int).toNat "worker" :=
  generateConfig_role_layout demoOptions (by decide) (by decide) (by decide)

theorem overrideCommands_length (o : RegistryOverride) :
    (overrideCommands o).length = 2 := rfl

theorem overrideCommands_selector (o : RegistryOverride) :
    ∀ cmd ∈ overrideCommands o, cmd.nodeSelector = "all" := by
  intro cmd hc
  rcases List.mem_cons.mp hc with rfl | hc
  · rfl
  · rcases List.mem_cons.mp hc with rfl | hc
    · rfl
    · exact absurd hc (List.not_mem_nil cmd)

theorem flatMap_overrideCommands_length (overrides : List RegistryOverride) :
    (overrides.flatMap overrideCommands).length = 2 * overrides.length := by
  induction overrides with
  | nil => rfl
  | cons o rest ih =>
    rw [List.flatMap_cons, List.length_append, ih, overrideCommands_length, List.length_cons]
    omega

theorem flatMap_overrideCommands_selector (overrides : List RegistryOverride) :
    ∀ cmd ∈ overrides.flatMap overrideCommands, cmd.nodeSelector = "all" := by
  intro cmd hc
  obtain ⟨o, _, hco⟩ := List.mem_flatMap.mp hc
  exact overrideCommands_selector o cmd hco

theorem filterNodes_all (nodes : List String) : filterNodes nodes "all" = nodes := rfl

theorem provisioning_length (exec : String → List String → Except String String)
    (nodes : List String) (cmds : List NodeCommand)
    (hsel : ∀ cmd ∈ cmds, cmd.nodeSelector = "all") :
    (cmds.flatMap fun cmd =>
      (filterNodes nodes cmd.nodeSelector).map fun node => commandLine exec node cmd).length =
      cmds.length * nodes.length := by
  induction cmds with
  | nil => simp
  | cons cmd rest ih =>
    rw [List.flatMap_cons, List.length_append, List.length_map,
      hsel cmd (List.mem_cons_self cmd rest), filterNodes_all,
      ih (fun c hc => hsel c (List.mem_cons_of_mem cmd hc)), List.length_cons]
    ring

/-- C4 counterexample: with one override and two nodes, every command
succeeding, the run records 6 lines, not 2×(overrides) + (nodes) = 4:
each provisioning command runs once per node. -/
theorem applyMirrorConfig_claimed_count_false :
    (GenerateMirrorConfig [{ original := "docker.io", mirror := "m" }] none).map
        (fun m =>
          (ApplyMirrorConfig (fun _ _ => .ok "") ["node-a", "node-b"] m).length) =
      .ok 6 ∧ (6 : Nat) ≠ 2 * 1 + 2 := by
  constructor
  · rfl
  · decide

theorem provisioning_all_nodes (exec : String → List String → Except String String)
    (nodes : List String) (cmds : List NodeCommand)
    (hsel : ∀ cmd ∈ cmds, cmd.nodeSelector = "all") :
    (cmds.flatMap fun cmd =>
      (filterNodes nodes cmd.nodeSelector).map fun node => commandLine exec node cmd) =
      cmds.flatMap fun cmd => nodes.map fun node => commandLine exec node cmd := by
  induction cmds with
  | nil => rfl
  | cons cmd rest ih =>
    rw [List.flatMap_cons, List.flatMap_cons,
      hsel cmd (List.mem_cons_self cmd rest), filterNodes_all,
      ih (fun c hc => hsel c (List.mem_cons_of_mem cmd hc))]

/-- C4 (amended): for every non-empty override list and every node list,
the run output is exactly the provisioning block — each of the
2×(overrides) generated commands recorded once per node, giving
2×(overrides)×(nodes) lines — followed by the restart block of exactly
(nodes) lines, for every exec outcome (failures included). -/
theorem applyMirrorConfig_line_counts (overrides : List RegistryOverride)
    (cred : Option CredentialInfo) (exec : String → List String → Except String String)
    (nodes : List String) (h : overrides ≠ []) :
    ∃ m, GenerateMirrorConfig overrides cred = .ok m ∧
      ApplyMirrorConfig exec nodes m =
        provisioningLines exec nodes m ++ restartLines exec nodes ∧
      provisioningLines exec nodes m =
        (m.postCreateCommands.flatMap fun cmd =>
          nodes.map fun node => commandLine exec node cmd) ∧
      (provisioningLines exec nodes m).length = 2 * overrides.length * nodes.length ∧
      (restartLines exec nodes).length = nodes.length := by
  unfold GenerateMirrorConfig
  rw [if_neg h]
  refine ⟨_, rfl, rfl, ?_, ?_, ?_⟩
  · exact provisioning_all_nodes exec nodes _ (flatMap_overrideCommands_selector overrides)
  · unfold provisioningLines
    rw [provisioning_length exec nodes _ (flatMap_overrideCommands_selector overrides),
      flatMap_overrideCommands_length]
  · exact List.length_map nodes (restartLine exec)

/-- Witness for C4 (amended) at one override, two nodes, all failing. -/
theorem applyMirrorConfig_line_counts_witness :
    ∃ m, GenerateMirrorConfig [{ original := "docker.io", mirror := "m" }] none = .ok m ∧
      ApplyMirrorConfig (fun _ _ => .error "boom") ["node-a", "node-b"] m =
        provisioningLines (fun _ _ => .error "boom") ["node-a", "node-b"] m ++
          restartLines (fun _ _ => .error "boom") ["node-a", "node-b"] ∧
      provisioningLines (fun _ _ => .error "boom") ["node-a", "node-b"] m =
        (m.postCreateCommands.flatMap fun cmd =>
          (["node-a", "node-b"] : List String).map fun node =>
            commandLine (fun _ _ => .error "boom") node cmd) ∧
      (provisioningLines (fun _ _ => .error "boom") ["node-a", "node-b"] m).length =
        2 * ([{ original := "docker.io", mirror := "m" }] : List RegistryOverride).length *
          (["node-a", "node-b"] : List String).length ∧
      (restartLines (fun _ _ => .error "boom") ["node-a", "node-b"]).length =
        (["node-a", "node-b"] : List String).length :=
  applyMirrorConfig_line_counts [{ original := "docker.io", mirror := "m" }] none
    (fun _ _ => .error "boom") ["node-a", "node-b"] (by decide)

/-- C2: for every ConfigOptions with a non-empty cluster name (including a
non-positive control-plane count, normalized to 1), the generated document
is accepted by ValidateConfig. -/
theorem generateConfig_validateConfig_roundTrip (opts : ConfigOptions)
    (h : opts.clusterName ≠ "") :
    ∃ cfg, GenerateConfig opts = .ok cfg ∧ ValidateConfig (some cfg) = .ok () ∧
      (opts.numControlPlanes ≤ 0 →
        cfg.nodes.map NodeConfig.role =
          "control-plane" :: List.replicate opts.numWorkers.toNat "worker") := by
  refine ⟨generatedConfig opts, ?_, ?_, ?_⟩
  · unfold GenerateConfig
    rw [if_neg h]
  · rw [validateConfig_ok_iff]
    refine ⟨generatedConfig opts, rfl, rfl, rfl, ?_, ?_⟩
    · intro n hn
      rw [generatedConfig_nodes] at hn
      rcases List.mem_append.mp hn with hcp | hw
      · obtain ⟨i, _, rfl⟩ := List.mem_map.mp hcp
        left; rfl
      · obtain ⟨i, _, rfl⟩ := List.mem_map.mp hw
        right; rfl
    · intro _
      refine ⟨mkControlPlaneNode opts 0, ?_, rfl⟩
      rw [generatedConfig_nodes]
      apply List.mem_append_left
      exact List.mem_map_of_mem _ (List.mem_range.mpr (normalizedControlPlanes_toNat_pos opts))
  · intro hle
    have h1 : normalizedControlPlanes opts = 1 := by
      unfold normalizedControlPlanes
      rw [if_pos hle]
    rw [generatedConfig_nodes, generateNodes_map_role, h1]
    rfl

/-- The demo options with a zero control-plane count, for the C2 witness. -/
def zeroCPOptions : ConfigOptions := { demoOptions with numControlPlanes := 0 }

/-- Witness for C2, at options with a zero control-plane count. -/
theorem generateConfig_validateConfig_roundTrip_witness :
    ∃ cfg, GenerateConfig zeroCPOptions = .ok cfg ∧
      ValidateConfig (some cfg) = .ok () ∧
      (zeroCPOptions.numControlPlanes ≤ 0 →
        cfg.nodes.map NodeConfig.role =
          "control-plane" :: List.replicate zeroCPOptions.numWorkers.toNat "worker") :=
  generateConfig_validateConfig_roundTrip zeroCPOptions (by decide)

/-- C3: ValidateConfig fails exactly when the text does not parse, the two
top-level discriminators are not the fixed literals, some node role is
invalid, or nodes are present without any control-plane; in every other
case it succeeds. -/
theorem validateConfig_fails_iff (doc : Option ClusterConfig) :
    ValidateConfig doc ≠ .ok () ↔
      (doc = none ∨ ∃ cfg, doc = some cfg ∧
        (cfg.kind ≠ "Cluster" ∨ cfg.apiVersion ≠ "kind.x-k8s.io/v1alpha4" ∨
          (∃ n ∈ cfg.nodes, n.role ≠ "control-plane" ∧ n.role ≠ "worker") ∨
          (cfg.nodes ≠ [] ∧ ∀ n ∈ cfg.nodes, n.role ≠ "control-plane"))) := by
  rw [Ne, validateConfig_ok_iff]
  cases doc with
  | none => simp
  | some cfg =>
    constructor
    · intro h
      by_cases hk : cfg.kind = "Cluster"
      swap
      · exact Or.inr ⟨cfg, rfl, Or.inl hk⟩
      by_cases ha : cfg.apiVersion = "kind.x-k8s.io/v1alpha4"
      swap
      · exact Or.inr ⟨cfg, rfl, Or.inr (Or.inl ha)⟩
      by_cases hroles : ∀ n ∈ cfg.nodes, n.role = "control-plane" ∨ n.role = "worker"
      swap
      · push_neg at hroles
        exact Or.inr ⟨cfg, rfl, Or.inr (Or.inr (Or.inl hroles))⟩
      · refine Or.inr ⟨cfg, rfl, Or.inr (Or.inr (Or.inr ?_))⟩
        by_contra hx
        push_neg at hx
        exact h ⟨cfg, rfl, hk, ha, hroles, hx⟩
    · rintro (hnone | ⟨cfg', hcfg, hbad⟩) ⟨cfg'', hcfg', hk', ha', hroles', hcp'⟩
      · exact Option.noConfusion hnone
      · have e1 : cfg' = cfg := (Option.some.inj hcfg).symm
        have e2 : cfg'' = cfg := (Option.some.inj hcfg').symm
        rw [e1] at hbad
        rw [e2] at hk' ha' hroles' hcp'
        rcases hbad with hk | ha | ⟨n, hn, h1, h2⟩ | ⟨hne, hnocp⟩
        · exact hk hk'
        · exact ha ha'
        · rcases hroles' n hn with hr | hr
          · exact h1 hr
          · exact h2 hr
        · obtain ⟨m, hm, hcm⟩ := hcp' hne
          exact hnocp m hm hcm

/-- A structurally invalid document used by the C3 witness: one node with
role "invalid". -/
def badRoleConfig : ClusterConfig :=
  { kind := "Cluster"
    apiVersion := "kind.x-k8s.io/v1alpha4"
    name := "bad"
    nodes := [{ role := "invalid", image := "", extraPortMappings := [],
                extraMounts := [], labels := [], kubeadmConfigPatches := [] }]
    networking := none
    featureGates := []
    containerdConfigPatches := [] }

/-- Witness for C3: a document with an invalid node role is rejected. -/
theorem validateConfig_fails_iff_witness :
    ValidateConfig (some badRoleConfig) ≠ .ok () :=
  (validateConfig_fails_iff (some badRoleConfig)).mpr
    (Or.inr ⟨badRoleConfig, rfl,
      Or.inr (Or.inr (Or.inl ⟨badRoleConfig.nodes.head (by decide), by decide, by decide, by decide⟩))⟩)

theorem map_epm_range_cp (opts : ConfigOptions) (hpm : opts.portMappings ≠ []) (m : Nat) :
    ((List.range (m + 1)).map (mkControlPlaneNode opts)).map NodeConfig.extraPortMappings =
      opts.portMappings :: List.replicate m [] := by
  induction m with
  | zero =>
    have h01 : List.range (0 + 1) = [0] := rfl
    rw [h01]
    simp [mkControlPlaneNode, hpm]
  | succ k ih =>
    rw [List.range_succ, List.map_append, List.map_append, ih, List.replicate_succ']
    have : (mkControlPlaneNode opts (k + 1)).extraPortMappings = [] := by
      unfold mkControlPlaneNode
      simp
    simp [this]

theorem map_epm_range_worker (opts : ConfigOptions) (w : Nat) :
    ((List.range w).map (mkWorkerNode opts)).map NodeConfig.extraPortMappings =
      List.replicate w [] := by
  induction w with
  | zero => rfl
  | succ k ih =>
    rw [List.range_succ, List.map_append, List.map_append, ih, List.replicate_succ']
    rfl

/-- C9: when port mappings are supplied, the first control-plane node of
the generated document receives the whole list and every other node has
none. -/
theorem generateConfig_portMappings_firstControlPlane (opts : ConfigOptions)
    (h1 : opts.clusterName ≠ "") (hpm : opts.portMappings ≠ []) :
    ∃ cfg, GenerateConfig opts = .ok cfg ∧
      cfg.nodes.map NodeConfig.extraPortMappings =
        opts.portMappings ::
          List.replicate
            ((normalizedControlPlanes opts).toNat - 1 + opts.numWorkers.toNat) [] := by
  refine ⟨generatedConfig opts, ?_, ?_⟩
  · unfold GenerateConfig
    rw [if_neg h1]
  · rw [generatedConfig_nodes]
    unfold generateNodes
    obtain ⟨m, hm⟩ : ∃ m, (normalizedControlPlanes opts).toNat = m + 1 :=
      ⟨(normalizedControlPlanes opts).toNat - 1,
        (Nat.succ_pred_eq_of_pos (normalizedControlPlanes_toNat_pos opts)).symm⟩
    rw [List.map_append, hm, map_epm_range_cp opts hpm, map_epm_range_worker, List.cons_append,
      ← List.replicate_add]
    have : m + 1 - 1 = m := rfl
    rw [this]

/-- Witness for C9 at the concrete demo options. -/
theorem generateConfig_portMappings_firstControlPlane_witness :
    ∃ cfg, GenerateConfig demoOptions = .ok cfg ∧
      cfg.nodes.map NodeConfig.extraPortMappings =
        demoOptions.portMappings ::
          List.replicate
            ((normalizedControlPlanes demoOptions).toNat - 1 +
              demoOptions.numWorkers.toNat) [] :=
  generateConfig_portMappings_firstControlPlane demoOptions (by decide) (by decide)

/-- A parsable config file with one inline auth entry, for the C5
counterexample. -/
def sampleParsedConfig : DockerConfigFile :=
  { auths := [("registry.example.com", "dG9rZW4=")]
    credsStore := ""
    credHelpers := [] }

/-- A filesystem where the first candidate exists but is unparsable and
the second candidate parses. -/
def skipDemoFS : String → FileState := fun p =>
  if p == "/root/.docker/config.json" then .unparsable
  else if p == "/root/.config/containers/auth.json" then .parsed sampleParsedConfig
  else .missing

/-- The candidate list of the C5 counterexample. -/
def skipDemoPaths : List CandidatePath :=
  [{ path := "/root/.docker/config.json", source := "docker" },
   { path := "/root/.config/containers/auth.json", source := "podman" }]

/-- C5 counterexample: a candidate that exists but fails to parse does NOT
terminate the search — the later parsable candidate is returned. -/
theorem findCredentials_skip_counterexample :
    skipDemoFS "/root/.docker/config.json" = .unparsable ∧
      FindCredentials skipDemoFS skipDemoPaths =
        .ok (credInfoFor { path := "/root/.config/containers/auth.json", source := "podman" }
          sampleParsedConfig) ∧
      (credInfoFor { path := "/root/.config/containers/auth.json", source := "podman" }
          sampleParsedConfig).filePath = "/root/.config/containers/auth.json" :=
  ⟨rfl, rfl, rfl⟩

/-- C5 (amended): a candidate that exists but does not parse is skipped,
and the search continues with the remaining candidates; the outcome
differs at most in the unused searched-path listing of the final error
message. -/
theorem findCredentials_skips_bad_candidate (fs : String → FileState)
    (p : CandidatePath) (rest : List CandidatePath)
    (h : ∀ cfg, fs p.path ≠ FileState.parsed cfg) :
    findFirst fs (p :: rest) = findFirst fs rest ∧
      (FindCredentials fs (p :: rest)).toOption = (FindCredentials fs rest).toOption := by
  have h1 : findFirst fs (p :: rest) = findFirst fs rest := by
    cases hfs : fs p.path with
    | missing => simp [findFirst, hfs]
    | unreadable => simp [findFirst, hfs]
    | unparsable => simp [findFirst, hfs]
    | parsed cfg => exact absurd hfs (h cfg)
  refine ⟨h1, ?_⟩
  unfold FindCredentials
  rw [h1]
  cases findFirst fs rest <;> rfl

/-- Witness for C5 (amended) at the concrete demo filesystem. -/
theorem findCredentials_skips_bad_candidate_witness :
    findFirst skipDemoFS skipDemoPaths =
        findFirst skipDemoFS
          [{ path := "/root/.config/containers/auth.json", source := "podman" }] ∧
      (FindCredentials skipDemoFS skipDemoPaths).toOption =
        (FindCredentials skipDemoFS
          [{ path := "/root/.config/containers/auth.json", source := "podman" }]).toOption :=
  findCredentials_skips_bad_candidate skipDemoFS
    { path := "/root/.docker/config.json", source := "docker" }
    [{ path := "/root/.config/containers/auth.json", source := "podman" }]
    (fun cfg h => by simp [skipDemoFS] at h)

theorem leadMatch_append_self (p rest : List Char) : leadMatch p (p ++ rest) = true := by
  induction p with
  | nil => rfl
  | cons a as ih => simp [leadMatch, ih]

theorem leadMatch_comparable (l : List Char) :
    ∀ p q, leadMatch p l = true → leadMatch q l = true →
      (leadMatch p q || leadMatch q p) = true := by
  induction l with
  | nil =>
    intro p q hp hq
    cases p with
    | nil => simp [leadMatch]
    | cons a as => simp [leadMatch] at hp
  | cons b bs ih =>
    intro p q hp hq
    cases p with
    | nil => simp [leadMatch]
    | cons a as =>
      cases q with
      | nil => simp [leadMatch]
      | cons c cs =>
        simp only [leadMatch, Bool.and_eq_true, beq_iff_eq] at hp hq
        obtain ⟨rfl, hp2⟩ := hp
        obtain ⟨rfl, hq2⟩ := hq
        simpa [leadMatch] using ih as cs hp2 hq2

theorem string_data_append (a b : String) : (a ++ b).data = a.data ++ b.data := rfl

theorem strStarts_append_self (p m : String) : strStarts (p ++ m) p = true := by
  unfold strStarts
  rw [string_data_append]
  exact leadMatch_append_self p.data m.data

theorem http_https_exclusive (m : String) :
    strStarts m "http://" = true → strStarts m "https://" = false := by
  intro h
  by_contra hx
  rw [Bool.not_eq_false] at hx
  have h2 := leadMatch_comparable m.data "http://".data "https://".data h hx
  revert h2
  decide

theorem normalize_starts_http (m : String) :
    strStarts (normalizeMirrorURL m) "http://" = !(strStarts m "https://") := by
  unfold normalizeMirrorURL
  by_cases h1 : strStarts m "http://" = true
  · have h2 := http_https_exclusive m h1
    simp [h1, h2]
  · rw [Bool.not_eq_true] at h1
    by_cases h2 : strStarts m "https://" = true
    · simp [h1, h2]
    · rw [Bool.not_eq_true] at h2
      simp only [h1, h2, Bool.or_self, Bool.false_or, if_false, Bool.not_false]
      exact strStarts_append_self "http://" m

theorem string_ne_of_head (a b : String) (h : a.data.head? ≠ b.data.head?) : a ≠ b :=
  fun he => h (congrArg (fun s => s.data.head?) he)

/-- C6: the generated hosts.toml emits the skip_verify line exactly when
the mirror URL scheme is plain http (scheme-less treated as http, https
never), and the server line is the fixed upstream alias for docker.io and
is built from the original hostname otherwise. -/
theorem generateHostsToml_skipVerify_and_server (o : RegistryOverride) :
    (("  skip_verify = true\n" ∈ generateHostsTomlSegments o) ↔
      strStarts o.mirror "https://" = false) ∧
    (o.original = "docker.io" →
      (generateHostsTomlSegments o).head? = some "server = \"https://registry-1.docker.io\"\n\n") ∧
    (o.original ≠ "docker.io" →
      (generateHostsTomlSegments o).head? =
        some ("server = \"https://" ++ o.original ++ "\"\n\n")) := by
  have hsrv : ("  skip_verify = true\n" : String) ≠ serverSegment o := by
    unfold serverSegment
    by_cases hd : (o.original == "docker.io") = true
    · rw [if_pos hd]
      decide
    · rw [if_neg hd]
      refine string_ne_of_head _ _ ?_
      have h1 : ("  skip_verify = true\n" : String).data.head? = some ' ' := rfl
      have h2 : ("server = \"https://" ++ o.original ++ "\"\n\n").data.head? = some 's' := rfl
      rw [h1, h2]
      decide
  have hhost : ("  skip_verify = true\n" : String) ≠
      "[host.\"" ++ normalizeMirrorURL o.mirror ++ "\"]\n" := by
    refine string_ne_of_head _ _ ?_
    have h1 : ("  skip_verify = true\n" : String).data.head? = some ' ' := rfl
    have h2 : ("[host.\"" ++ normalizeMirrorURL o.mirror ++ "\"]\n").data.head? =
      some '[' := rfl
    rw [h1, h2]
    decide
  have hcap : ("  skip_verify = true\n" : String) ≠
      "  capabilities = [\"pull\", \"resolve\"]\n" := by decide
  have hhead : (generateHostsTomlSegments o).head? = some (serverSegment o) := by
    unfold generateHostsTomlSegments
    by_cases h : strStarts (normalizeMirrorURL o.mirror) "http://" = true
    · rw [if_pos h]; rfl
    · rw [if_neg h]; rfl
  refine ⟨?_, ?_, ?_⟩
  · unfold generateHostsTomlSegments
    have hn := normalize_starts_http o.mirror
    by_cases h : strStarts o.mirror "https://" = true
    · rw [h, Bool.not_true] at hn
      rw [hn]
      simp only [Bool.false_eq_true, if_false, List.mem_cons, List.not_mem_nil, or_false, h]
      constructor
      · rintro (he | he | he)
        · exact absurd he hsrv
        · exact absurd he hhost
        · exact absurd he hcap
      · intro he
        exact absurd he (by decide)
    · rw [Bool.not_eq_true] at h
      rw [h, Bool.not_false] at hn
      rw [hn]
      simp [h]
  · intro hd
    rw [hhead]
    unfold serverSegment
    rw [if_pos (beq_iff_eq.mpr hd)]
  · intro hd
    rw [hhead]
    unfold serverSegment
    rw [if_neg]
    intro hb
    exact hd (beq_iff_eq.mp hb)

/-- Witness for C6: the plain-http demo override carries the skip_verify
line. -/
theorem generateHostsToml_skipVerify_and_server_witness :
    "  skip_verify = true\n" ∈
      generateHostsTomlSegments { original := "docker.io", mirror := "http://local:5000" } :=
  (generateHostsToml_skipVerify_and_server
    { original := "docker.io", mirror := "http://local:5000" }).1.mpr (by decide)

/-- C7: Detect probes docker first; it falls through to podman when docker
is absent from the search path or its info call fails; and when neither
runtime responds it returns a plain value (not an error) with
available = false, runtime = unknown and the fixed diagnostic text. -/
theorem detect_probe_order_and_unavailable (env : DetectEnv) :
    (∀ di, env.dockerOnPath = true → env.dockerInfoOut = some di →
      Detect env = dockerSuccessInfo env di) ∧
    (∀ pi_, (env.dockerOnPath = false ∨ env.dockerInfoOut = none) →
      env.podmanOnPath = true → env.podmanInfoOut = some pi_ →
      Detect env = podmanSuccessInfo env pi_) ∧
    ((env.dockerOnPath = false ∨ env.dockerInfoOut = none) →
      (env.podmanOnPath = false ∨ env.podmanInfoOut = none) →
      Detect env =
        { runtime := .unknown, backend := .unknown, version := "", socketPath := ""
          os := env.osInfo, available := false
          error := "no container runtime detected; install Docker or Podman" }) := by
  refine ⟨?_, ?_, ?_⟩
  · intro di h1 h2
    unfold Detect
    rw [h1, h2]
    rfl
  · intro pi_ h1 h2 h3
    unfold Detect
    rcases h1 with h1 | h1
    · rw [h1, h2, h3]
      rfl
    · rw [h1, h2, h3]
      cases env.dockerOnPath <;> rfl
  · intro h1 h2
    unfold Detect
    have hpm : (if env.podmanOnPath = true then
        match env.podmanInfoOut with
        | some pi_ => podmanSuccessInfo env pi_
        | none => unavailableInfo env.osInfo
      else unavailableInfo env.osInfo) = unavailableInfo env.osInfo := by
      rcases h2 with h2 | h2
      · rw [h2]
        rfl
      · rw [h2]
        cases env.podmanOnPath <;> rfl
    rcases h1 with h1 | h1
    · rw [h1]
      exact hpm
    · rw [h1]
      cases env.dockerOnPath
      · exact hpm
      · exact hpm

/-- An environment with no runtime at all, for the C7 witness. -/
def emptyDetectEnv : DetectEnv :=
  { dockerOnPath := false
    dockerInfoOut := none
    podmanOnPath := false
    podmanInfoOut := none
    socketPath := "/var/run/docker.sock"
    wsl := false
    osInfo := { os := "linux", arch := "amd64", platform := "Linux"
                platformNote := "Native container support. Docker or Podman can run directly. WSL2 environment possible." } }

/-- Witness for C7: with neither runtime responding, Detect returns the
unavailable value. -/
theorem detect_probe_order_and_unavailable_witness :
    Detect emptyDetectEnv =
      { runtime := .unknown, backend := .unknown, version := "", socketPath := ""
        os := emptyDetectEnv.osInfo, available := false
        error := "no container runtime detected; install Docker or Podman" } :=
  (detect_probe_order_and_unavailable emptyDetectEnv).2.2 (Or.inl rfl) (Or.inl rfl)

/-- C8 counterexample: on a host OS that is neither Linux nor macOS nor
Windows (here "freebsd"), the Podman backend is classified as unknown,
not as the VM-backed podman-machine variant. -/
theorem detectPodmanBackend_nonLinux_counterexample :
    detectPodmanBackend
        { os := "freebsd", arch := "amd64", platform := "freebsd"
          platformNote := "Unsupported platform: freebsd" } false = Backend.unknown ∧
      Backend.unknown ≠ Backend.podmanMachine := by
  constructor
  · rfl
  · decide

/-- C8 (amended): Podman backend classification is podman-machine exactly
on macOS and Windows hosts, wsl or native on Linux hosts according to the
kernel-signature check, and unknown on any other host OS. -/
theorem detectPodmanBackend_classification (osInfo : OSInfo) (wsl : Bool) :
    ((osInfo.os = "darwin" ∨ osInfo.os = "windows") →
      detectPodmanBackend osInfo wsl = .podmanMachine) ∧
    (osInfo.os = "linux" →
      detectPodmanBackend osInfo wsl = if wsl then .wsl else .native) ∧
    (osInfo.os ≠ "darwin" → osInfo.os ≠ "windows" → osInfo.os ≠ "linux" →
      detectPodmanBackend osInfo wsl = .unknown) := by
  unfold detectPodmanBackend
  refine ⟨?_, ?_, ?_⟩
  · intro h
    rw [if_pos h]
  · intro h
    rw [if_neg, if_pos h]
    rw [h]
    rintro (h1 | h1) <;> exact absurd h1 (by decide)
  · intro h1 h2 h3
    rw [if_neg, if_neg h3]
    rintro (hh | hh)
    · exact h1 hh
    · exact h2 hh

/-- Witness for C8 (amended) on a macOS host. -/
theorem detectPodmanBackend_classification_witness :
    detectPodmanBackend
        { os := "darwin", arch := "arm64", platform := "macOS"
          platformNote := "Containers run in a VM. Docker Desktop, Colima, Podman Machine, or Lima required." }
        false = Backend.podmanMachine :=
  (detectPodmanBackend_classification
    { os := "darwin", arch := "arm64", platform := "macOS"
      platformNote := "Containers run in a VM. Docker Desktop, Colima, Podman Machine, or Lima required." }
    false).1 (Or.inl rfl)

/-- C10: every branch of the network advisory table leaves the two base
fields untouched: port mapping is always supported and the recommended
NodePort range is always "30000-32767". -/
theorem detectNetworkConfig_fixed_fields (ri : RuntimeInfo) :
    (DetectNetworkConfig ri).supportsPortMapping = true ∧
    (DetectNetworkConfig ri).recommendedPortRange = "30000-32767" := by
  unfold DetectNetworkConfig
  cases ri.backend
  case dockerDesktop => exact ⟨rfl, rfl⟩
  case colima => exact ⟨rfl, rfl⟩
  case wsl => exact ⟨rfl, rfl⟩
  case podmanMachine => exact ⟨rfl, rfl⟩
  case native =>
    by_cases h : (ri.os.os == "linux") = true
    · rw [if_pos h]
      exact ⟨rfl, rfl⟩
    · rw [if_neg h]
      exact ⟨rfl, rfl⟩
  case rancherDesktop => exact ⟨rfl, rfl⟩
  case lima => exact ⟨rfl, rfl⟩
  case unknown => exact ⟨rfl, rfl⟩

end KindManager
